import Mathlib

/-!
Shallow embedding of src/main.py of FritzBoxGuestWifiControl.

The router is an external stateful device reached through
fritzconnection.call_action.  We model one run of the controller as a
stream of router responses, one per call_action invocation, indexed by
the number of calls made so far.  Each response either succeeds with a
mapping of result values or raises a FritzConnectionException carrying a
message.  The controller records a trace of events: every action
invocation (with service, action name and arguments) and every sleep.
Python exceptions that escape the controller (AttributeError after
`del self.fritzbox` in close) are modelled with Except.
-/

/-- Python values occurring in this program: None, strings, booleans and
string-keyed dictionaries. -/
inductive Value where
  | vnone : Value
  | str : String → Value
  | bool : Bool → Value
  | dict : List (String × Value) → Value
deriving Repr

/-- Python `d.get(k)`: the value stored at key `k`, or None when absent. -/
def dictGet (d : List (String × Value)) (k : String) : Value :=
  match d.find? (fun p => p.1 == k) with
  | some p => p.2
  | Option.none => Value.vnone

/-- Python `v == t` for a string literal `t`: true exactly when `v` is the
string `t`; None, booleans and dicts never equal a string. -/
def Value.eqStr : Value → String → Bool
  | Value.str s, t => s == t
  | _, _ => false

/-- Result of one `call_action` invocation on the router: a mapping of
result values, or a raised FritzConnectionException with its message. -/
inductive ActionResult where
  | ok : List (String × Value) → ActionResult
  | err : String → ActionResult
deriving Repr

/-- Events observable in one run: one remote action invocation
(service id, action name, arguments), or a sleep of a number of seconds. -/
inductive Event where
  | callAction : String → String → List (String × Value) → Event
  | sleepFor : Nat → Event
deriving Repr

/-- Execution state of a run: how many `call_action` invocations were made
so far (indexing into the response stream) and the trace of events. -/
structure St where
  callIdx : Nat
  trace : List Event

/-- The state at the start of a run: no calls made, empty trace. -/
def St.start : St := { callIdx := 0, trace := [] }

/-- `from time import sleep`; sleeping only appends a trace event. -/
def sleepSeconds (s : St) (seconds : Nat) : St :=
  { s with trace := s.trace ++ [Event.sleepFor seconds] }

/-- Python exceptions that can escape the controller in this model. -/
inductive PyError where
  | attributeError : String → PyError
deriving Repr

/-- The metadata a live fritzconnection.FritzConnection exposes without an
action call: `system_version` and `modelname`. -/
structure FritzConnection where
  system_version : String
  modelname : String

/-- `FRITZBOX_GUESTWIFI_ENABLED = "Up"` (src/main.py line 24). -/
def FRITZBOX_GUESTWIFI_ENABLED : String := "Up"

/-- The controller: `self.fritzbox` is the connection attribute, `none`
after `close` has deleted it (then any access raises AttributeError). -/
structure FritzBoxGuestWiFiControl where
  fritzbox : Option FritzConnection

/-- `__guestwifi_action(action_name, arguments=None)`: defaults arguments
to the empty mapping, invokes the action on service WLANConfiguration3,
and on a FritzConnectionException logs it and returns the dict
with an "error" key holding the message (src/main.py lines 90-97).
Accessing `self.fritzbox` raises AttributeError when the attribute was
deleted; that exception is not a FritzConnectionException and escapes. -/
def FritzBoxGuestWiFiControl.priv_guestwifi_action (env : Nat → ActionResult)
    (self : FritzBoxGuestWiFiControl) (s : St) (action_name : String)
    (arguments : Option (List (String × Value))) :
    Except PyError (List (String × Value)) × St :=
  let args := arguments.getD []
  match self.fritzbox with
  | Option.none => (Except.error (PyError.attributeError "fritzbox"), s)
  | some _ =>
    match env s.callIdx with
    | ActionResult.ok result =>
      (Except.ok result,
       { callIdx := s.callIdx + 1,
         trace := s.trace ++ [Event.callAction "WLANConfiguration3" action_name args] })
    | ActionResult.err msg =>
      (Except.ok [("error", Value.str msg)],
       { callIdx := s.callIdx + 1,
         trace := s.trace ++ [Event.callAction "WLANConfiguration3" action_name args] })

/-- `__get_guestwifi_status()`: GetInfo action, then `.get("NewStatus")`
(src/main.py lines 87-88). -/
def FritzBoxGuestWiFiControl.priv_get_guestwifi_status (env : Nat → ActionResult)
    (self : FritzBoxGuestWiFiControl) (s : St) : Except PyError Value × St :=
  match self.priv_guestwifi_action env s "GetInfo" Option.none with
  | (Except.error e, s1) => (Except.error e, s1)
  | (Except.ok d, s1) => (Except.ok (dictGet d "NewStatus"), s1)

/-- `get_guestwifi_status()` (src/main.py lines 62-64). -/
def FritzBoxGuestWiFiControl.get_guestwifi_status (env : Nat → ActionResult)
    (self : FritzBoxGuestWiFiControl) (s : St) :
    Except PyError (List (String × Value)) × St :=
  match self.priv_get_guestwifi_status env s with
  | (Except.error e, s1) => (Except.error e, s1)
  | (Except.ok v, s1) => (Except.ok [("enabled", v)], s1)

/-- The fall-through tail of `set_guestwifi_status` (src/main.py
lines 81-85): invoke SetEnable with NewEnable set to `enable`, sleep 5
seconds, then return `get_guestwifi_status()`. -/
def FritzBoxGuestWiFiControl.set_guestwifi_status_change (env : Nat → ActionResult)
    (self : FritzBoxGuestWiFiControl) (s : St) (enable : Bool) :
    Except PyError (List (String × Value)) × St :=
  match self.priv_guestwifi_action env s "SetEnable"
      (some [("NewEnable", Value.bool enable)]) with
  | (Except.error e, s1) => (Except.error e, s1)
  | (Except.ok _, s1) =>
    let s2 := sleepSeconds s1 5
    self.get_guestwifi_status env s2

/-- `set_guestwifi_status(enable)` (src/main.py lines 66-85): read the
status; when `enable` and the status equals FRITZBOX_GUESTWIFI_ENABLED,
or not `enable` and the status differs from it, return the dict with
key "enabled" holding that status; otherwise run the change tail. -/
def FritzBoxGuestWiFiControl.set_guestwifi_status (env : Nat → ActionResult)
    (self : FritzBoxGuestWiFiControl) (s : St) (enable : Bool) :
    Except PyError (List (String × Value)) × St :=
  match self.priv_get_guestwifi_status env s with
  | (Except.error e, s1) => (Except.error e, s1)
  | (Except.ok status, s1) =>
    if enable then
      if Value.eqStr status FRITZBOX_GUESTWIFI_ENABLED then
        (Except.ok [("enabled", status)], s1)
      else
        self.set_guestwifi_status_change env s1 enable
    else
      if Value.eqStr status FRITZBOX_GUESTWIFI_ENABLED then
        self.set_guestwifi_status_change env s1 enable
      else
        (Except.ok [("enabled", status)], s1)

/-- `get_info()` (src/main.py lines 48-60): the dict literal evaluates
`self.fritzbox.system_version` first (AttributeError when closed), then
the three action calls in source order: GetInfo via
`__get_guestwifi_status`, GetSSID with `.get("NewSSID")`, GetStatistics
returned whole. -/
def FritzBoxGuestWiFiControl.get_info (env : Nat → ActionResult)
    (self : FritzBoxGuestWiFiControl) (s : St) : Except PyError Value × St :=
  match self.fritzbox with
  | Option.none => (Except.error (PyError.attributeError "fritzbox"), s)
  | some fb =>
    match self.priv_get_guestwifi_status env s with
    | (Except.error e, s1) => (Except.error e, s1)
    | (Except.ok enabled, s1) =>
      match self.priv_guestwifi_action env s1 "GetSSID" Option.none with
      | (Except.error e, s2) => (Except.error e, s2)
      | (Except.ok ssid_result, s2) =>
        match self.priv_guestwifi_action env s2 "GetStatistics" Option.none with
        | (Except.error e, s3) => (Except.error e, s3)
        | (Except.ok stats, s3) =>
          (Except.ok (Value.dict
            [("fritzbox", Value.dict
              [("version", Value.str fb.system_version),
               ("model", Value.str fb.modelname),
               ("guestwifi", Value.dict
                 [("enabled", enabled),
                  ("ssid", dictGet ssid_result "NewSSID"),
                  ("stats", Value.dict stats)])])]), s3)

/-- `close()` (src/main.py lines 99-101): `del self.fritzbox`; deleting an
already deleted attribute raises AttributeError. -/
def FritzBoxGuestWiFiControl.close (self : FritzBoxGuestWiFiControl) :
    Except PyError FritzBoxGuestWiFiControl :=
  match self.fritzbox with
  | some _ => Except.ok { fritzbox := Option.none }
  | Option.none => Except.error (PyError.attributeError "fritzbox")

/-- Python truthiness of an `os.getenv` result: None and the empty string
are falsy, every other string is truthy. -/
def pyTruthy : Option String → Bool
  | Option.none => false
  | some s => !(s == "")

/-- The module-level startup checks (src/main.py lines 32-35): the three
`assert os.getenv(...)` statements run at import time, in order, before
the FastAPI app is created; a falsy value raises AssertionError and the
process does not start. -/
def moduleStartupChecks (address user password : Option String) :
    Except String Unit :=
  if pyTruthy address then
    if pyTruthy user then
      if pyTruthy password then Except.ok ()
      else Except.error "AssertionError: FRITZBOX_PASS"
    else Except.error "AssertionError: FRITZBOX_USER"
  else Except.error "AssertionError: FRITZBOX_ADDRESS"

/-- Count the invocations of the action named `name` in a trace. -/
def countAction (tr : List Event) (name : String) : Nat :=
  (tr.filter (fun e =>
    match e with
    | Event.callAction _ a _ => a == name
    | Event.sleepFor _ => false)).length

/-- Count the sleep events in a trace. -/
def countSleep (tr : List Event) : Nat :=
  (tr.filter (fun e =>
    match e with
    | Event.callAction _ _ _ => false
    | Event.sleepFor _ => true)).length

/-- The mapping that `priv_guestwifi_action` hands back as a function of
the router response: the result mapping on success, the recovered dict
with an "error" key on a raised FritzConnectionException. -/
def recoveredResult : ActionResult → List (String × Value)
  | ActionResult.ok d => d
  | ActionResult.err msg => [("error", Value.str msg)]

/-- Whether the message `msg` occurs as a string value anywhere inside a
Value (an error marker carrying the failure description). -/
def containsMsg (msg : String) : Value → Bool
  | Value.vnone => false
  | Value.str s => s == msg
  | Value.bool _ => false
  | Value.dict d => containsMsgEntries msg d
where
  /-- `containsMsg` over dictionary entries. -/
  containsMsgEntries (msg : String) : List (String × Value) → Bool
  | [] => false
  | (_, v) :: rest => containsMsg msg v || containsMsgEntries msg rest

/-- A sample live connection used for concrete runs. -/
def fb0 : FritzConnection :=
  { system_version := "7.29", modelname := "FRITZ!Box 7590" }

/-- A router whose every response reports status "Up". -/
def envUp : Nat → ActionResult :=
  fun _ => ActionResult.ok [("NewStatus", Value.str "Up")]

/-- A router on which every action raises a FritzConnectionException
with message "boom". -/
def envErrBoom : Nat → ActionResult :=
  fun _ => ActionResult.err "boom"

/-- A router whose first read reports status "Down" and whose later
reads report "Up". -/
def envDown : Nat → ActionResult :=
  fun n =>
    match n with
    | 0 => ActionResult.ok [("NewStatus", Value.str "Down")]
    | _ => ActionResult.ok [("NewStatus", Value.str "Up")]

/-- A router on which the first call (GetInfo) fails with "boom" while
the following calls (GetSSID, GetStatistics) succeed. -/
def envInfoFail : Nat → ActionResult :=
  fun n =>
    match n with
    | 0 => ActionResult.err "boom"
    | 1 => ActionResult.ok [("NewSSID", Value.str "GuestSSID")]
    | _ => ActionResult.ok [("TotalAssociations", Value.str "1")]

/-- A router on which GetInfo and GetSSID succeed while the third call
(GetStatistics) fails with "stats down". -/
def envStatsFail : Nat → ActionResult :=
  fun n =>
    match n with
    | 0 => ActionResult.ok [("NewStatus", Value.str "Up")]
    | 1 => ActionResult.ok [("NewSSID", Value.str "GuestSSID")]
    | _ => ActionResult.err "stats down"

/-- Characterisation of `priv_guestwifi_action` on a live connection: it
never throws, returns `recoveredResult` of the next router response, and
appends exactly one invocation event. -/
theorem priv_action_spec (env : Nat → ActionResult) (fb : FritzConnection) (s : St)
    (name : String) (args : Option (List (String × Value))) :
    (FritzBoxGuestWiFiControl.mk (some fb)).priv_guestwifi_action env s name args =
      (Except.ok (recoveredResult (env s.callIdx)),
       { callIdx := s.callIdx + 1,
         trace := s.trace ++ [Event.callAction "WLANConfiguration3" name (args.getD [])] }) := by
  cases h : env s.callIdx <;>
    simp [FritzBoxGuestWiFiControl.priv_guestwifi_action, recoveredResult, h]

/-- Characterisation of `priv_get_guestwifi_status` on a live connection. -/
theorem priv_status_spec (env : Nat → ActionResult) (fb : FritzConnection) (s : St) :
    (FritzBoxGuestWiFiControl.mk (some fb)).priv_get_guestwifi_status env s =
      (Except.ok (dictGet (recoveredResult (env s.callIdx)) "NewStatus"),
       { callIdx := s.callIdx + 1,
         trace := s.trace ++ [Event.callAction "WLANConfiguration3" "GetInfo" []] }) := by
  simp [FritzBoxGuestWiFiControl.priv_get_guestwifi_status, priv_action_spec]

/-- Characterisation of `get_guestwifi_status` on a live connection. -/
theorem get_status_spec (env : Nat → ActionResult) (fb : FritzConnection) (s : St) :
    (FritzBoxGuestWiFiControl.mk (some fb)).get_guestwifi_status env s =
      (Except.ok [("enabled", dictGet (recoveredResult (env s.callIdx)) "NewStatus")],
       { callIdx := s.callIdx + 1,
         trace := s.trace ++ [Event.callAction "WLANConfiguration3" "GetInfo" []] }) := by
  simp [FritzBoxGuestWiFiControl.get_guestwifi_status, priv_status_spec]

/-- Characterisation of `get_info` on a live connection: three action
calls in source order, each field built from its own response. -/
theorem get_info_spec (env : Nat → ActionResult) (fb : FritzConnection) (s : St) :
    (FritzBoxGuestWiFiControl.mk (some fb)).get_info env s =
      (Except.ok (Value.dict
        [("fritzbox", Value.dict
          [("version", Value.str fb.system_version),
           ("model", Value.str fb.modelname),
           ("guestwifi", Value.dict
             [("enabled", dictGet (recoveredResult (env s.callIdx)) "NewStatus"),
              ("ssid", dictGet (recoveredResult (env (s.callIdx + 1))) "NewSSID"),
              ("stats", Value.dict (recoveredResult (env (s.callIdx + 2))))])])]),
       { callIdx := s.callIdx + 3,
         trace := s.trace ++
           [Event.callAction "WLANConfiguration3" "GetInfo" [],
            Event.callAction "WLANConfiguration3" "GetSSID" [],
            Event.callAction "WLANConfiguration3" "GetStatistics" []] }) := by
  simp [FritzBoxGuestWiFiControl.get_info, priv_status_spec, priv_action_spec]

/-- Characterisation of the change tail of `set_guestwifi_status`: one
SetEnable invocation carrying NewEnable, a 5-second sleep, one GetInfo
re-read whose status is returned. -/
theorem change_spec (env : Nat → ActionResult) (fb : FritzConnection) (s : St) (enable : Bool) :
    (FritzBoxGuestWiFiControl.mk (some fb)).set_guestwifi_status_change env s enable =
      (Except.ok [("enabled", dictGet (recoveredResult (env (s.callIdx + 1))) "NewStatus")],
       { callIdx := s.callIdx + 2,
         trace := s.trace ++
           [Event.callAction "WLANConfiguration3" "SetEnable" [("NewEnable", Value.bool enable)],
            Event.sleepFor 5,
            Event.callAction "WLANConfiguration3" "GetInfo" []] }) := by
  rw [FritzBoxGuestWiFiControl.set_guestwifi_status_change, priv_action_spec]
  simp [sleepSeconds, get_status_spec]

/-- The boolean status comparison of the source agrees with equality to
the literal status string. -/
theorem Value.eqStr_eq_true (v : Value) (t : String) :
    Value.eqStr v t = true ↔ v = Value.str t := by
  cases v <;> simp [Value.eqStr]

/-- The recovered error dict has no "NewStatus" key. -/
theorem dictGet_error_newstatus (msg : String) :
    dictGet [("error", Value.str msg)] "NewStatus" = Value.vnone := rfl

/-- The recovered error dict has no "NewSSID" key. -/
theorem dictGet_error_newssid (msg : String) :
    dictGet [("error", Value.str msg)] "NewSSID" = Value.vnone := rfl

/-- Claim C1: for every call of set_guestwifi_status with enable true
where the freshly read status equals "Up", and with enable false where
the freshly read status is anything other than "Up", the method returns
the dict with key "enabled" holding the current status immediately,
invokes zero SetEnable actions, and incurs no settle wait. -/
theorem set_guestwifi_status_idempotent_short_circuit
    (env : Nat → ActionResult) (fb : FritzConnection) (enable : Bool) (st : Value)
    (hread : ((FritzBoxGuestWiFiControl.mk (some fb)).priv_get_guestwifi_status env St.start).1 =
      Except.ok st)
    (hcase : (enable = true ∧ st = Value.str FRITZBOX_GUESTWIFI_ENABLED) ∨
             (enable = false ∧ st ≠ Value.str FRITZBOX_GUESTWIFI_ENABLED)) :
    (FritzBoxGuestWiFiControl.mk (some fb)).set_guestwifi_status env St.start enable =
      (Except.ok [("enabled", st)],
       { callIdx := 1, trace := [Event.callAction "WLANConfiguration3" "GetInfo" []] }) ∧
    countAction ((FritzBoxGuestWiFiControl.mk (some fb)).set_guestwifi_status env St.start
      enable).2.trace "SetEnable" = 0 ∧
    countSleep ((FritzBoxGuestWiFiControl.mk (some fb)).set_guestwifi_status env St.start
      enable).2.trace = 0 := by
  rw [priv_status_spec] at hread
  simp only [St.start] at hread
  simp only [Except.ok.injEq] at hread
  have hmain : (FritzBoxGuestWiFiControl.mk (some fb)).set_guestwifi_status env St.start enable =
      (Except.ok [("enabled", st)],
       { callIdx := 1, trace := [Event.callAction "WLANConfiguration3" "GetInfo" []] }) := by
    rw [FritzBoxGuestWiFiControl.set_guestwifi_status, priv_status_spec]
    simp only [St.start]
    rw [hread]
    rcases hcase with ⟨he, hst⟩ | ⟨he, hst⟩ <;> subst he
    · subst hst
      simp [Value.eqStr, FRITZBOX_GUESTWIFI_ENABLED]
    · have hf : Value.eqStr st FRITZBOX_GUESTWIFI_ENABLED = false := by
        rcases h : Value.eqStr st FRITZBOX_GUESTWIFI_ENABLED
        · rfl
        · exact absurd ((Value.eqStr_eq_true _ _).mp h) hst
      simp [hf]
  refine ⟨hmain, ?_, ?_⟩ <;> rw [hmain] <;> rfl

/-- Witness for C1: with a router reporting "Up", enabling returns the
dict with "enabled" mapped to "Up" at once, without SetEnable or sleep. -/
theorem set_guestwifi_status_idempotent_short_circuit_witness :
    (FritzBoxGuestWiFiControl.mk (some fb0)).set_guestwifi_status envUp St.start true =
      (Except.ok [("enabled", Value.str "Up")],
       { callIdx := 1, trace := [Event.callAction "WLANConfiguration3" "GetInfo" []] }) ∧
    countAction ((FritzBoxGuestWiFiControl.mk (some fb0)).set_guestwifi_status envUp St.start
      true).2.trace "SetEnable" = 0 ∧
    countSleep ((FritzBoxGuestWiFiControl.mk (some fb0)).set_guestwifi_status envUp St.start
      true).2.trace = 0 :=
  set_guestwifi_status_idempotent_short_circuit envUp fb0 true (Value.str "Up") rfl
    (Or.inl ⟨rfl, rfl⟩)

/-- Claim C2: when the short-circuit does not apply, set_guestwifi_status
invokes exactly one SetEnable action carrying NewEnable, sleeps exactly 5
seconds, performs exactly one GetInfo re-read, and returns the post-wait
status under the key "enabled"; the final trace is exactly the pre-read,
the SetEnable, the sleep and the re-read. -/
theorem set_guestwifi_status_state_change_path
    (env : Nat → ActionResult) (fb : FritzConnection) (enable : Bool) (st : Value)
    (hread : ((FritzBoxGuestWiFiControl.mk (some fb)).priv_get_guestwifi_status env St.start).1 =
      Except.ok st)
    (hcase : (enable = true ∧ st ≠ Value.str FRITZBOX_GUESTWIFI_ENABLED) ∨
             (enable = false ∧ st = Value.str FRITZBOX_GUESTWIFI_ENABLED)) :
    (FritzBoxGuestWiFiControl.mk (some fb)).set_guestwifi_status env St.start enable =
      (Except.ok [("enabled", dictGet (recoveredResult (env 2)) "NewStatus")],
       { callIdx := 3,
         trace := [Event.callAction "WLANConfiguration3" "GetInfo" [],
                   Event.callAction "WLANConfiguration3" "SetEnable"
                     [("NewEnable", Value.bool enable)],
                   Event.sleepFor 5,
                   Event.callAction "WLANConfiguration3" "GetInfo" []] }) := by
  rw [priv_status_spec] at hread
  simp only [St.start] at hread
  simp only [Except.ok.injEq] at hread
  rw [FritzBoxGuestWiFiControl.set_guestwifi_status, priv_status_spec]
  simp only [St.start]
  rw [hread]
  rcases hcase with ⟨he, hst⟩ | ⟨he, hst⟩ <;> subst he
  · have hf : Value.eqStr st FRITZBOX_GUESTWIFI_ENABLED = false := by
      rcases h : Value.eqStr st FRITZBOX_GUESTWIFI_ENABLED
      · rfl
      · exact absurd ((Value.eqStr_eq_true _ _).mp h) hst
    simp [hf, change_spec]
  · subst hst
    simp [Value.eqStr, FRITZBOX_GUESTWIFI_ENABLED, change_spec]

/-- Witness for C2: starting from status "Down", enabling issues the
SetEnable invocation, the 5-second sleep and one re-read, and returns
the post-wait status "Up". -/
theorem set_guestwifi_status_state_change_path_witness :
    (FritzBoxGuestWiFiControl.mk (some fb0)).set_guestwifi_status envDown St.start true =
      (Except.ok [("enabled", Value.str "Up")],
       { callIdx := 3,
         trace := [Event.callAction "WLANConfiguration3" "GetInfo" [],
                   Event.callAction "WLANConfiguration3" "SetEnable"
                     [("NewEnable", Value.bool true)],
                   Event.sleepFor 5,
                   Event.callAction "WLANConfiguration3" "GetInfo" []] }) :=
  set_guestwifi_status_state_change_path envDown fb0 true (Value.str "Down") rfl
    (Or.inl ⟨rfl, fun h => by injection h with h2; exact absurd h2 (by decide)⟩)

/-- Counterexample for C3: with GetInfo failing ("boom") while GetSSID
and GetStatistics succeed, get_info still returns all fields, but the
field of the failed action (enabled) is None, and the failure
description "boom" occurs nowhere in the result — the failed field
carries no error marker, contrary to the claim. -/
theorem get_info_error_marker_counterexample :
    ((FritzBoxGuestWiFiControl.mk (some fb0)).get_info envInfoFail St.start).1 =
      Except.ok (Value.dict
        [("fritzbox", Value.dict
          [("version", Value.str "7.29"),
           ("model", Value.str "FRITZ!Box 7590"),
           ("guestwifi", Value.dict
             [("enabled", Value.vnone),
              ("ssid", Value.str "GuestSSID"),
              ("stats", Value.dict [("TotalAssociations", Value.str "1")])])])]) ∧
    containsMsg "boom" (Value.dict
        [("fritzbox", Value.dict
          [("version", Value.str "7.29"),
           ("model", Value.str "FRITZ!Box 7590"),
           ("guestwifi", Value.dict
             [("enabled", Value.vnone),
              ("ssid", Value.str "GuestSSID"),
              ("stats", Value.dict [("TotalAssociations", Value.str "1")])])])]) = false :=
  ⟨rfl, rfl⟩

/-- Claim C3 amended: when exactly one of the three actions of get_info
fails, the aggregate never aborts and all fields stay present; a failed
GetStatistics leaves its error marker in the stats field, but a failed
GetInfo or GetSSID leaves None in its field: the key lookup applied to
the recovered error dict drops the failure description. -/
theorem get_info_single_failure_fields (env : Nat → ActionResult) (fb : FritzConnection)
    (msg : String) (da db : List (String × Value)) :
    ((env 0 = ActionResult.err msg ∧ env 1 = ActionResult.ok da ∧ env 2 = ActionResult.ok db) →
      ((FritzBoxGuestWiFiControl.mk (some fb)).get_info env St.start).1 =
        Except.ok (Value.dict
          [("fritzbox", Value.dict
            [("version", Value.str fb.system_version),
             ("model", Value.str fb.modelname),
             ("guestwifi", Value.dict
               [("enabled", Value.vnone),
                ("ssid", dictGet da "NewSSID"),
                ("stats", Value.dict db)])])])) ∧
    ((env 0 = ActionResult.ok da ∧ env 1 = ActionResult.err msg ∧ env 2 = ActionResult.ok db) →
      ((FritzBoxGuestWiFiControl.mk (some fb)).get_info env St.start).1 =
        Except.ok (Value.dict
          [("fritzbox", Value.dict
            [("version", Value.str fb.system_version),
             ("model", Value.str fb.modelname),
             ("guestwifi", Value.dict
               [("enabled", dictGet da "NewStatus"),
                ("ssid", Value.vnone),
                ("stats", Value.dict db)])])])) ∧
    ((env 0 = ActionResult.ok da ∧ env 1 = ActionResult.ok db ∧ env 2 = ActionResult.err msg) →
      ((FritzBoxGuestWiFiControl.mk (some fb)).get_info env St.start).1 =
        Except.ok (Value.dict
          [("fritzbox", Value.dict
            [("version", Value.str fb.system_version),
             ("model", Value.str fb.modelname),
             ("guestwifi", Value.dict
               [("enabled", dictGet da "NewStatus"),
                ("ssid", dictGet db "NewSSID"),
                ("stats", Value.dict [("error", Value.str msg)])])])])) := by
  refine ⟨?_, ?_, ?_⟩ <;> rintro ⟨h0, h1, h2⟩ <;> rw [get_info_spec] <;>
    simp [St.start, h0, h1, h2, recoveredResult, dictGet_error_newstatus,
      dictGet_error_newssid]

/-- Witness for C3 amended: the GetInfo-failure case on a concrete run. -/
theorem get_info_single_failure_fields_witness :
    ((FritzBoxGuestWiFiControl.mk (some fb0)).get_info envInfoFail St.start).1 =
      Except.ok (Value.dict
        [("fritzbox", Value.dict
          [("version", Value.str fb0.system_version),
           ("model", Value.str fb0.modelname),
           ("guestwifi", Value.dict
             [("enabled", Value.vnone),
              ("ssid", dictGet [("NewSSID", Value.str "GuestSSID")] "NewSSID"),
              ("stats", Value.dict [("TotalAssociations", Value.str "1")])])])]) :=
  (get_info_single_failure_fields envInfoFail fb0 "boom"
    [("NewSSID", Value.str "GuestSSID")] [("TotalAssociations", Value.str "1")]).1
    ⟨rfl, rfl, rfl⟩

/-- Counterexample for C4: with GetInfo raising "boom",
get_guestwifi_status returns the dict mapping "enabled" to None, which
differs from the claimed dict mapping "enabled" to the error dict. -/
theorem get_guestwifi_status_error_shape_counterexample :
    ((FritzBoxGuestWiFiControl.mk (some fb0)).get_guestwifi_status envErrBoom St.start).1 =
      Except.ok [("enabled", Value.vnone)] ∧
    ([("enabled", Value.vnone)] : List (String × Value)) ≠
      [("enabled", Value.dict [("error", Value.str "boom")])] :=
  ⟨rfl, fun h => by
    have h2 := List.head_eq_of_cons_eq h
    injection h2 with h3 h4
    exact nomatch h4⟩

/-- Claim C4 amended: for every call of get_guestwifi_status during
which the GetInfo action raises an ActionError, the method returns the
dict mapping "enabled" to None (the recovered error dict is dropped by
the "NewStatus" lookup) and no exception escapes the controller. -/
theorem get_guestwifi_status_error_returns_none (env : Nat → ActionResult)
    (fb : FritzConnection) (msg : String) (h : env 0 = ActionResult.err msg) :
    (FritzBoxGuestWiFiControl.mk (some fb)).get_guestwifi_status env St.start =
      (Except.ok [("enabled", Value.vnone)],
       { callIdx := 1, trace := [Event.callAction "WLANConfiguration3" "GetInfo" []] }) := by
  rw [get_status_spec]
  simp [St.start, h, recoveredResult, dictGet_error_newstatus]

/-- Witness for C4 amended: a concrete failing GetInfo read. -/
theorem get_guestwifi_status_error_returns_none_witness :
    (FritzBoxGuestWiFiControl.mk (some fb0)).get_guestwifi_status envErrBoom St.start =
      (Except.ok [("enabled", Value.vnone)],
       { callIdx := 1, trace := [Event.callAction "WLANConfiguration3" "GetInfo" []] }) :=
  get_guestwifi_status_error_returns_none envErrBoom fb0 "boom" rfl

/-- Claim C5: the controller treats the guest WiFi as enabled exactly
when the status string equals the literal "Up"; for every other string
s the sole enabled test rejects s, set_guestwifi_status false takes the
already-disabled short-circuit (returns the status, no further action),
and set_guestwifi_status true takes the state-change path. -/
theorem status_up_literal_contract (env : Nat → ActionResult) (fb : FritzConnection)
    (s : String) (hs : s ≠ FRITZBOX_GUESTWIFI_ENABLED)
    (hread : ((FritzBoxGuestWiFiControl.mk (some fb)).priv_get_guestwifi_status env St.start).1 =
      Except.ok (Value.str s)) :
    Value.eqStr (Value.str s) FRITZBOX_GUESTWIFI_ENABLED = false ∧
    (FritzBoxGuestWiFiControl.mk (some fb)).set_guestwifi_status env St.start false =
      (Except.ok [("enabled", Value.str s)],
       { callIdx := 1, trace := [Event.callAction "WLANConfiguration3" "GetInfo" []] }) ∧
    ((FritzBoxGuestWiFiControl.mk (some fb)).set_guestwifi_status env St.start true).2.trace =
      [Event.callAction "WLANConfiguration3" "GetInfo" [],
       Event.callAction "WLANConfiguration3" "SetEnable" [("NewEnable", Value.bool true)],
       Event.sleepFor 5,
       Event.callAction "WLANConfiguration3" "GetInfo" []] := by
  rw [priv_status_spec] at hread
  simp only [St.start] at hread
  simp only [Except.ok.injEq] at hread
  have hf : Value.eqStr (Value.str s) FRITZBOX_GUESTWIFI_ENABLED = false := by
    rcases h : Value.eqStr (Value.str s) FRITZBOX_GUESTWIFI_ENABLED
    · rfl
    · have := (Value.eqStr_eq_true _ _).mp h
      injection this with h2
      exact absurd h2 hs
  refine ⟨hf, ?_, ?_⟩ <;>
    rw [FritzBoxGuestWiFiControl.set_guestwifi_status, priv_status_spec] <;>
    simp only [St.start] <;> rw [hread] <;> simp [hf, change_spec]

/-- Witness for C5: the string "Down" is not "Up"; disabling
short-circuits and enabling changes state. -/
theorem status_up_literal_contract_witness :
    Value.eqStr (Value.str "Down") FRITZBOX_GUESTWIFI_ENABLED = false ∧
    (FritzBoxGuestWiFiControl.mk (some fb0)).set_guestwifi_status envDown St.start false =
      (Except.ok [("enabled", Value.str "Down")],
       { callIdx := 1, trace := [Event.callAction "WLANConfiguration3" "GetInfo" []] }) ∧
    ((FritzBoxGuestWiFiControl.mk (some fb0)).set_guestwifi_status envDown St.start true).2.trace =
      [Event.callAction "WLANConfiguration3" "GetInfo" [],
       Event.callAction "WLANConfiguration3" "SetEnable" [("NewEnable", Value.bool true)],
       Event.sleepFor 5,
       Event.callAction "WLANConfiguration3" "GetInfo" []] :=
  status_up_literal_contract envDown fb0 "Down" (by decide) rfl

/-- Claim C6: when the GetStatistics action fails while GetInfo and
GetSSID succeed, get_info returns a complete structure — version, model,
enabled, ssid and stats all present — in which only the stats field
carries the error marker with the failure description. -/
theorem get_info_stats_failure_resilience (env : Nat → ActionResult) (fb : FritzConnection)
    (da db : List (String × Value)) (msg : String)
    (h0 : env 0 = ActionResult.ok da) (h1 : env 1 = ActionResult.ok db)
    (h2 : env 2 = ActionResult.err msg) :
    ((FritzBoxGuestWiFiControl.mk (some fb)).get_info env St.start).1 =
      Except.ok (Value.dict
        [("fritzbox", Value.dict
          [("version", Value.str fb.system_version),
           ("model", Value.str fb.modelname),
           ("guestwifi", Value.dict
             [("enabled", dictGet da "NewStatus"),
              ("ssid", dictGet db "NewSSID"),
              ("stats", Value.dict [("error", Value.str msg)])])])]) := by
  rw [get_info_spec]
  simp [St.start, h0, h1, h2, recoveredResult]

/-- Witness for C6: a concrete run with a failing GetStatistics. -/
theorem get_info_stats_failure_resilience_witness :
    ((FritzBoxGuestWiFiControl.mk (some fb0)).get_info envStatsFail St.start).1 =
      Except.ok (Value.dict
        [("fritzbox", Value.dict
          [("version", Value.str fb0.system_version),
           ("model", Value.str fb0.modelname),
           ("guestwifi", Value.dict
             [("enabled", dictGet [("NewStatus", Value.str "Up")] "NewStatus"),
              ("ssid", dictGet [("NewSSID", Value.str "GuestSSID")] "NewSSID"),
              ("stats", Value.dict [("error", Value.str "stats down")])])])]) :=
  get_info_stats_failure_resilience envStatsFail fb0 [("NewStatus", Value.str "Up")]
    [("NewSSID", Value.str "GuestSSID")] "stats down" rfl rfl rfl

/-- Claim C7: get_guestwifi_status performs a single GetInfo read —
its trace is exactly one GetInfo invocation, so no SetEnable and no
sleep — and, when the router state is unchanged (the next response
equals the previous one), a second consecutive call returns the same
value as the first. -/
theorem get_guestwifi_status_read_roundtrip (env : Nat → ActionResult)
    (fb : FritzConnection) (hsame : env 1 = env 0) :
    ((FritzBoxGuestWiFiControl.mk (some fb)).get_guestwifi_status env St.start).2.trace =
      [Event.callAction "WLANConfiguration3" "GetInfo" []] ∧
    ((FritzBoxGuestWiFiControl.mk (some fb)).get_guestwifi_status env
        ((FritzBoxGuestWiFiControl.mk (some fb)).get_guestwifi_status env St.start).2).1 =
      ((FritzBoxGuestWiFiControl.mk (some fb)).get_guestwifi_status env St.start).1 := by
  simp [get_status_spec, St.start, hsame]

/-- Witness for C7: the constant "Up" router. -/
theorem get_guestwifi_status_read_roundtrip_witness :
    ((FritzBoxGuestWiFiControl.mk (some fb0)).get_guestwifi_status envUp St.start).2.trace =
      [Event.callAction "WLANConfiguration3" "GetInfo" []] ∧
    ((FritzBoxGuestWiFiControl.mk (some fb0)).get_guestwifi_status envUp
        ((FritzBoxGuestWiFiControl.mk (some fb0)).get_guestwifi_status envUp St.start).2).1 =
      ((FritzBoxGuestWiFiControl.mk (some fb0)).get_guestwifi_status envUp St.start).1 :=
  get_guestwifi_status_read_roundtrip envUp fb0 rfl

/-- Claim C8: when any of the three required configuration values is
absent or empty at startup, the module-level assert statements raise
before the web application is created: the process fails to start. -/
theorem startup_missing_credential_fails (address user password : Option String)
    (h : address = Option.none ∨ address = some "" ∨ user = Option.none ∨ user = some "" ∨
         password = Option.none ∨ password = some "") :
    ∃ e, moduleStartupChecks address user password = Except.error e := by
  have hbad : ¬ (pyTruthy address = true ∧ pyTruthy user = true ∧
      pyTruthy password = true) := by
    rcases h with h|h|h|h|h|h <;> subst h <;> simp [pyTruthy]
  by_cases ha : pyTruthy address = true
  · by_cases hu : pyTruthy user = true
    · by_cases hp : pyTruthy password = true
      · exact absurd ⟨ha, hu, hp⟩ hbad
      · exact ⟨"AssertionError: FRITZBOX_PASS", by
          simp [moduleStartupChecks, ha, hu, hp]⟩
    · exact ⟨"AssertionError: FRITZBOX_USER", by
        simp [moduleStartupChecks, ha, hu]⟩
  · exact ⟨"AssertionError: FRITZBOX_ADDRESS", by
      simp [moduleStartupChecks, ha]⟩

/-- Witness for C8: an empty router address refuses startup. -/
theorem startup_missing_credential_fails_witness :
    ∃ e, moduleStartupChecks (some "") (some "admin") (some "secret") = Except.error e :=
  startup_missing_credential_fails (some "") (some "admin") (some "secret")
    (Or.inr (Or.inl rfl))

/-- Claim C9: when the pre-write GetInfo read inside set_guestwifi_status
fails (so the extracted status is None), disabling returns the dict
mapping "enabled" to None immediately without invoking SetEnable, while
enabling still proceeds to invoke SetEnable, sleep 5 seconds and
re-read, despite the current status being unknown. -/
theorem set_guestwifi_status_unknown_status (env : Nat → ActionResult)
    (fb : FritzConnection) (msg : String) (h : env 0 = ActionResult.err msg) :
    (FritzBoxGuestWiFiControl.mk (some fb)).set_guestwifi_status env St.start false =
      (Except.ok [("enabled", Value.vnone)],
       { callIdx := 1, trace := [Event.callAction "WLANConfiguration3" "GetInfo" []] }) ∧
    ((FritzBoxGuestWiFiControl.mk (some fb)).set_guestwifi_status env St.start true).2.trace =
      [Event.callAction "WLANConfiguration3" "GetInfo" [],
       Event.callAction "WLANConfiguration3" "SetEnable" [("NewEnable", Value.bool true)],
       Event.sleepFor 5,
       Event.callAction "WLANConfiguration3" "GetInfo" []] := by
  constructor <;>
    rw [FritzBoxGuestWiFiControl.set_guestwifi_status, priv_status_spec] <;>
    simp [St.start, h, recoveredResult, dictGet_error_newstatus, Value.eqStr, change_spec]

/-- Witness for C9: the always-failing router. -/
theorem set_guestwifi_status_unknown_status_witness :
    (FritzBoxGuestWiFiControl.mk (some fb0)).set_guestwifi_status envErrBoom St.start false =
      (Except.ok [("enabled", Value.vnone)],
       { callIdx := 1, trace := [Event.callAction "WLANConfiguration3" "GetInfo" []] }) ∧
    ((FritzBoxGuestWiFiControl.mk (some fb0)).set_guestwifi_status envErrBoom
        St.start true).2.trace =
      [Event.callAction "WLANConfiguration3" "GetInfo" [],
       Event.callAction "WLANConfiguration3" "SetEnable" [("NewEnable", Value.bool true)],
       Event.sleepFor 5,
       Event.callAction "WLANConfiguration3" "GetInfo" []] :=
  set_guestwifi_status_unknown_status envErrBoom fb0 "boom" rfl

/-- Claim C10: close removes the connection reference; afterwards every
controller operation — get_info, get_guestwifi_status,
set_guestwifi_status, and a second close — fails with an
attribute-access error, leaving the run state untouched: no action can
be issued through a closed controller. -/
theorem close_prevents_further_actions (env : Nat → ActionResult) (fb : FritzConnection)
    (s : St) (enable : Bool) :
    FritzBoxGuestWiFiControl.close (FritzBoxGuestWiFiControl.mk (some fb)) =
      Except.ok (FritzBoxGuestWiFiControl.mk Option.none) ∧
    (FritzBoxGuestWiFiControl.mk Option.none).get_info env s =
      (Except.error (PyError.attributeError "fritzbox"), s) ∧
    (FritzBoxGuestWiFiControl.mk Option.none).get_guestwifi_status env s =
      (Except.error (PyError.attributeError "fritzbox"), s) ∧
    (FritzBoxGuestWiFiControl.mk Option.none).set_guestwifi_status env s enable =
      (Except.error (PyError.attributeError "fritzbox"), s) ∧
    FritzBoxGuestWiFiControl.close (FritzBoxGuestWiFiControl.mk Option.none) =
      Except.error (PyError.attributeError "fritzbox") :=
  ⟨rfl, rfl, rfl, rfl, rfl⟩
